import Mathlib

/-!
Shallow embedding of the system-resource-monitor repository
(`system_monitor.py`, `monitor_ui.py`, `pdf_report.py`).

Python floats are modelled as rationals (ℚ): every arithmetic operation the
claims touch (subtraction, division, comparison) is exact on the values of
interest.  Python exceptions are modelled with `Except String`; `None`-able
OS counters with `Option`.  `psutil` / `time.time()` / `datetime.now()` /
`subprocess.run` results are inputs, bundled in an `Env` record: one `Env`
per `collect_snapshot` call supplies the outcome of each OS query made
during that pass.
-/

/-- Result of `psutil.net_io_counters()` (the fields used by the code). -/
structure NetCounters where
  bytes_sent : ℚ
  bytes_recv : ℚ
  packets_sent : ℚ
  packets_recv : ℚ
  deriving Repr, DecidableEq

/-- Result of `psutil.disk_io_counters()` (the fields used by the code);
the call can return `None`, modelled by `Option DiskCounters` at use sites. -/
structure DiskCounters where
  read_bytes : ℚ
  write_bytes : ℚ
  deriving Repr, DecidableEq

/-- Result of `psutil.disk_usage('/')`. -/
structure DiskUsage where
  percent : ℚ
  total : ℚ
  used : ℚ
  free : ℚ
  deriving Repr, DecidableEq

/-- Result of `psutil.virtual_memory()` (fields used). -/
structure VirtualMemory where
  percent : ℚ
  total : ℚ
  available : ℚ
  used : ℚ
  deriving Repr, DecidableEq

/-- Result of `psutil.swap_memory()` (fields used). -/
structure SwapMemory where
  percent : ℚ
  total : ℚ
  used : ℚ
  deriving Repr, DecidableEq

/-- Outcome of the `subprocess.run(['nvidia-smi', ...])` call in
`get_gpu_info`: either some exception (missing binary, timeout, or any
other raise, all handled identically by the bare `except`), or a completed
process with a return code and captured stdout. -/
inductive GpuRun where
  | exc
  | done (returncode : Int) (stdout : String)
  deriving Repr, DecidableEq

/-- The dict returned by `SystemMonitor.get_gpu_info`. -/
structure GpuInfo where
  available : Bool
  usage : ℚ
  memory : ℚ
  temperature : ℚ
  deriving Repr, DecidableEq

/-- The dict returned by `SystemMonitor.get_temperature_info`: either the
per-sensor-group readings collected by the loop, or the dict
`{'error': str(e)}` produced when `psutil.sensors_temperatures()` raises. -/
inductive TempResult where
  | ok (entries : List (String × List ℚ))
  | err (msg : String)
  deriving Repr, DecidableEq

/-- The dict returned by `SystemMonitor.get_cpu_info`. -/
structure CpuInfo where
  percent : ℚ
  count : Nat
  frequency : ℚ
  per_cpu : List ℚ
  deriving Repr, DecidableEq

/-- The dict returned by `SystemMonitor.get_memory_info`. -/
structure MemInfo where
  percent : ℚ
  total : ℚ
  available : ℚ
  used : ℚ
  swap_percent : ℚ
  swap_total : ℚ
  swap_used : ℚ
  deriving Repr, DecidableEq

/-- The dict returned by `SystemMonitor.get_disk_info`. -/
structure DiskInfo where
  percent : ℚ
  total : ℚ
  used : ℚ
  free : ℚ
  read_speed : ℚ
  write_speed : ℚ
  deriving Repr, DecidableEq

/-- The dict returned by `SystemMonitor.get_network_info`. -/
structure NetInfo where
  bytes_sent : ℚ
  bytes_recv : ℚ
  sent_speed : ℚ
  recv_speed : ℚ
  packets_sent : ℚ
  packets_recv : ℚ
  deriving Repr, DecidableEq

/-- The `self.history` dict of `SystemMonitor`: nine parallel channel
lists.  Python `datetime` timestamps are modelled as rationals. -/
structure History where
  timestamps : List ℚ
  cpu_percent : List ℚ
  memory_percent : List ℚ
  disk_read : List ℚ
  disk_write : List ℚ
  net_sent : List ℚ
  net_recv : List ℚ
  temperatures : List ℚ
  gpu_usage : List ℚ
  deriving Repr, DecidableEq

/-- The mutable fields of a `SystemMonitor` instance. -/
structure MonitorState where
  history : History
  start_time : ℚ
  prev_net_io : NetCounters
  prev_disk_io : Option DiskCounters
  prev_time : ℚ
  deriving Repr, DecidableEq

/-- The empty history dict built in `SystemMonitor.__init__` and
re-installed by `clear_history`. -/
def emptyHistory : History :=
  ⟨[], [], [], [], [], [], [], [], []⟩

/-- `SystemMonitor.__init__`: `time.time()` is called twice (once for
`start_time`, once for `_prev_time`), and the two `psutil` counter queries
seed the previous-sample memory. -/
def SystemMonitor.init (t_start : ℚ) (net0 : NetCounters)
    (disk0 : Option DiskCounters) (t_prev : ℚ) : MonitorState :=
  { history := emptyHistory
  , start_time := t_start
  , prev_net_io := net0
  , prev_disk_io := disk0
  , prev_time := t_prev }

/-- The outcome of every OS query made during one sampling pass.  A field
of type `Except String α` models a `psutil` call that may raise. -/
structure Env where
  now : ℚ
  t_main : ℚ
  t_disk : ℚ
  t_net : ℚ
  cpu_percent : Except String ℚ
  cpu_count : Except String Nat
  cpu_freq : Except String (Option ℚ)
  per_cpu : Except String (List ℚ)
  virtual_mem : Except String VirtualMemory
  swap_mem : Except String SwapMemory
  disk_usage : Except String DiskUsage
  disk_counters : Except String (Option DiskCounters)
  net_counters : Except String NetCounters
  has_sensors : Bool
  sensors : Except String (List (String × List ℚ))
  gpu : GpuRun

/-- `SystemMonitor.get_cpu_info`: any of the four `psutil` calls may raise
and the exception propagates (the method has no handler).
`frequency` is `cpu_freq.current if cpu_freq else 0`. -/
def get_cpu_info (e : Env) : Except String CpuInfo := do
  let percent ← e.cpu_percent
  let count ← e.cpu_count
  let freq ← e.cpu_freq
  let per ← e.per_cpu
  pure { percent := percent, count := count
       , frequency := freq.getD 0, per_cpu := per }

/-- `SystemMonitor.get_memory_info`: no handler, exceptions propagate. -/
def get_memory_info (e : Env) : Except String MemInfo := do
  let memory ← e.virtual_mem
  let swap ← e.swap_mem
  pure { percent := memory.percent, total := memory.total
       , available := memory.available, used := memory.used
       , swap_percent := swap.percent, swap_total := swap.total
       , swap_used := swap.used }

/-- `SystemMonitor.get_disk_info`: computes read/write speeds from the
previous disk counters when `time_delta > 0 and disk_io and
self._prev_disk_io`; updates `self._prev_disk_io` (but not
`self._prev_time`); exceptions from the two `psutil` calls propagate. -/
def get_disk_info (e : Env) (st : MonitorState) :
    Except String (DiskInfo × MonitorState) := do
  let du ← e.disk_usage
  let dio ← e.disk_counters
  let current_time := e.t_disk
  let time_delta := current_time - st.prev_time
  let speeds : ℚ × ℚ :=
    match dio, st.prev_disk_io with
    | some d, some p =>
      if time_delta > 0 then
        ((d.read_bytes - p.read_bytes) / time_delta,
         (d.write_bytes - p.write_bytes) / time_delta)
      else (0, 0)
    | _, _ => (0, 0)
  let st' : MonitorState :=
    match dio with
    | some d => { st with prev_disk_io := some d }
    | none => st
  pure ({ percent := du.percent, total := du.total, used := du.used
        , free := du.free, read_speed := speeds.1
        , write_speed := speeds.2 }, st')

/-- `SystemMonitor.get_network_info`: computes send/receive speeds from
the previous network counters when `time_delta > 0`; updates both
`self._prev_net_io` and `self._prev_time`; the `psutil` call's exception
propagates. -/
def get_network_info (e : Env) (st : MonitorState) :
    Except String (NetInfo × MonitorState) := do
  let net ← e.net_counters
  let current_time := e.t_net
  let time_delta := current_time - st.prev_time
  let speeds : ℚ × ℚ :=
    if time_delta > 0 then
      ((net.bytes_sent - st.prev_net_io.bytes_sent) / time_delta,
       (net.bytes_recv - st.prev_net_io.bytes_recv) / time_delta)
    else (0, 0)
  let st' : MonitorState :=
    { st with prev_net_io := net, prev_time := current_time }
  pure ({ bytes_sent := net.bytes_sent, bytes_recv := net.bytes_recv
        , sent_speed := speeds.1, recv_speed := speeds.2
        , packets_sent := net.packets_sent
        , packets_recv := net.packets_recv }, st')

/-- `SystemMonitor.get_temperature_info`: best-effort; a raise from
`psutil.sensors_temperatures()` is caught and stored under the `'error'`
key; sensor groups with an empty entry list are skipped by the loop. -/
def get_temperature_info (e : Env) : TempResult :=
  if e.has_sensors then
    match e.sensors with
    | .ok sensors => .ok (sensors.filter (fun p => !p.2.isEmpty))
    | .error msg => .err msg
  else .ok []

/-- Digit-string value: `some` of the decimal value when every character
is a digit (an empty list yields `some 0`; emptiness is checked by the
caller). -/
def digitsVal (l : List Char) : Option Nat :=
  l.foldl
    (fun acc c =>
      acc.bind (fun n => if c.isDigit then some (n * 10 + (c.toNat - 48)) else none))
    (some 0)

/-- Models Python `float(s)` on the plain decimal literals produced by
`nvidia-smi` CSV output: optional sign, digits with an optional single
decimal point, surrounding whitespace allowed.  `none` models the
`ValueError` raise on any other string (scientific notation, `inf`, `nan`
never occur in this output and are not modelled). -/
def parseFloat (s : String) : Option ℚ :=
  let s := s.trim
  let (sign, body) : ℚ × String :=
    if s.startsWith "-" then (-1, s.drop 1)
    else if s.startsWith "+" then (1, s.drop 1) else (1, s)
  match body.splitOn "." with
  | [ip] =>
    if ip.isEmpty then none
    else (digitsVal ip.data).map (fun n => sign * n)
  | [ip, fp] =>
    if ip.isEmpty && fp.isEmpty then none
    else
      match digitsVal ip.data, digitsVal fp.data with
      | some i, some f =>
        some (sign * ((i : ℚ) + (f : ℚ) / ((10 : ℚ) ^ fp.length)))
      | _, _ => none
  | _ => none

/-- `SystemMonitor.get_gpu_info`: starts from the all-unavailable default
dict; on a zero return code with at least three comma-separated fields it
sets `available = True` FIRST and then parses the three floats in order,
so a `ValueError` from `float()` is caught by the bare `except` after
`available` (and any earlier fields) were already assigned. -/
def get_gpu_info (g : GpuRun) : GpuInfo :=
  match g with
  | .exc => ⟨false, 0, 0, 0⟩
  | .done rc out =>
    if rc = 0 then
      let values := out.trim.splitOn ", "
      if values.length ≥ 3 then
        match parseFloat (values.getD 0 ""), parseFloat (values.getD 1 ""),
              parseFloat (values.getD 2 "") with
        | some u, some m, some t => ⟨true, u, m, t⟩
        | some u, some m, none => ⟨true, u, m, 0⟩
        | some u, none, _ => ⟨true, u, 0, 0⟩
        | none, _, _ => ⟨true, 0, 0, 0⟩
      else ⟨false, 0, 0, 0⟩
    else ⟨false, 0, 0, 0⟩

/-- The temperature scalar appended to history by `collect_snapshot`:
mean of all readings across all groups when the temps dict is non-empty
and has no `'error'` key and the reading count is positive, else 0. -/
def avgTemp : TempResult → ℚ
  | .err _ => 0
  | .ok l =>
    let s : ℚ := (l.map (fun p => p.2.sum)).sum
    let c : Nat := (l.map (fun p => p.2.length)).sum
    if c > 0 then s / (c : ℚ) else 0

/-- The snapshot dict returned by `SystemMonitor.collect_snapshot`. -/
structure Snapshot where
  timestamp : ℚ
  elapsed_time : ℚ
  cpu : CpuInfo
  memory : MemInfo
  disk : DiskInfo
  network : NetInfo
  temperature : TempResult
  gpu : GpuInfo

/-- `SystemMonitor.collect_snapshot`: queries the sources in program
order (cpu, memory, disk, network, temperature, gpu), then appends one
element to each of the nine history channels.  cpu/memory/disk/network
have no exception handler, so a raise there propagates and nothing is
appended; temperature and gpu are total (their handlers are internal). -/
def collect_snapshot (e : Env) (st : MonitorState) :
    Except String (Snapshot × MonitorState) := do
  let cpu ← get_cpu_info e
  let memory ← get_memory_info e
  let (disk, st1) ← get_disk_info e st
  let (network, st2) ← get_network_info e st1
  let temperature := get_temperature_info e
  let gpu := get_gpu_info e.gpu
  let snap : Snapshot :=
    { timestamp := e.now, elapsed_time := e.t_main - st.start_time
    , cpu := cpu, memory := memory, disk := disk, network := network
    , temperature := temperature, gpu := gpu }
  let h := st2.history
  let h' : History :=
    { timestamps := h.timestamps ++ [snap.timestamp]
    , cpu_percent := h.cpu_percent ++ [cpu.percent]
    , memory_percent := h.memory_percent ++ [memory.percent]
    , disk_read := h.disk_read ++ [disk.read_speed]
    , disk_write := h.disk_write ++ [disk.write_speed]
    , net_sent := h.net_sent ++ [network.sent_speed]
    , net_recv := h.net_recv ++ [network.recv_speed]
    , temperatures := h.temperatures ++ [avgTemp temperature]
    , gpu_usage := h.gpu_usage ++ [gpu.usage] }
  pure (snap, { st2 with history := h' })

/-- `SystemMonitor.get_history`: returns the history dict; reading does
not change the monitor's state. -/
def get_history (st : MonitorState) : History := st.history

/-- `SystemMonitor.clear_history`: empties every channel list and resets
`start_time` to the current time; nothing else on the instance is
touched. -/
def clear_history (t : ℚ) (st : MonitorState) : MonitorState :=
  { st with history := emptyHistory, start_time := t }

/-- A sequence of `collect_snapshot` calls, one `Env` per pass; a raise
aborts the sequence exactly as it would abort the Python loop. -/
def collectN : List Env → MonitorState → Except String MonitorState
  | [], st => .ok st
  | e :: rest, st => do
    let (_, st') ← collect_snapshot e st
    collectN rest st'

/-- Models the Python formatting `f"{x:.2f}"` for the non-negative exact
values this program prints: the value rounded to hundredths, rendered
with exactly two digits after the decimal point.  (On the inputs of the
testable properties the value is an exact multiple of 1/100, so no
rounding-mode subtlety arises.) -/
def formatFixed2 (q : ℚ) : String :=
  let n : Int := round (q * 100)
  let i := n / 100
  let f := n % 100
  toString i ++ "." ++ (if f < 10 then "0" ++ toString f else toString f)

/-- The unit-cascade loop body of `format_bytes`. -/
def format_bytes_go : List String → ℚ → String
  | [], b => formatFixed2 b ++ " PB"
  | u :: rest, b =>
    if b < 1024 then formatFixed2 b ++ " " ++ u
    else format_bytes_go rest (b / 1024)

/-- `format_bytes`: walk the unit list B, KB, MB, GB, TB dividing by 1024
until the value drops below 1024; past TB everything is printed in PB. -/
def format_bytes (bytes_value : ℚ) : String :=
  format_bytes_go ["B", "KB", "MB", "GB", "TB"] bytes_value

/-- `statistics.mean` (Python standard library, as used in
`_generate_statistics`): arithmetic mean. -/
def mean (xs : List ℚ) : ℚ := xs.sum / (xs.length : ℚ)

/-- Python built-in `min` over a list. -/
def listMin : List ℚ → ℚ
  | [] => 0
  | x :: xs => xs.foldl min x

/-- Python built-in `max` over a list. -/
def listMax : List ℚ → ℚ
  | [] => 0
  | x :: xs => xs.foldl max x

/-- The variance under `statistics.stdev`: sum of squared deviations from
the mean divided by n−1 (sample variance). -/
def sampleVariance (xs : List ℚ) : ℚ :=
  ((xs.map (fun x => (x - mean xs) ^ 2)).sum) / ((xs.length - 1 : ℕ) : ℚ)

/-- `statistics.stdev`: square root of the sample variance. -/
noncomputable def stdev (xs : List ℚ) : ℝ := Real.sqrt (sampleVariance xs)

/-- The standard-deviation entry of one row of
`PDFReportGenerator._generate_statistics`:
`statistics.stdev(data) if len(data) > 1 else 0`. -/
noncomputable def stdevReported (xs : List ℚ) : ℝ :=
  if xs.length > 1 then stdev xs else 0

/-- The four numeric values of one statistics-table row in
`_generate_statistics` (each then rendered with `:.2f`). -/
noncomputable def statsRow (data : List ℚ) : ℚ × ℚ × ℚ × ℝ :=
  (mean data, listMin data, listMax data, stdevReported data)

/-- The fields of `MonitorUI` that the monitoring-session claims are
about.  `active_loops` counts live `monitoring_loop` threads: Python's
`threading.Thread(target=self.monitoring_loop).start()` adds one.  The
three `_enabled` flags model the tk button states (`tk.NORMAL` /
`tk.DISABLED`); tk only delivers a button's command while the button is
enabled. -/
structure UIState where
  is_monitoring : Bool
  active_loops : Nat
  start_enabled : Bool
  stop_enabled : Bool
  pdf_enabled : Bool
  recording_start_time : Option ℚ
  monitor : MonitorState
  deriving Repr, DecidableEq

/-- `MonitorUI.start_monitoring`: unconditionally (the method performs no
already-running check) sets the flag, clears history, records the start
time, disables the start button, enables stop, disables PDF, and spawns a
new `monitoring_loop` thread. -/
def start_monitoring (t : ℚ) (ui : UIState) : UIState :=
  { ui with
    is_monitoring := true
  , monitor := clear_history t ui.monitor
  , recording_start_time := some t
  , start_enabled := false
  , stop_enabled := true
  , pdf_enabled := false
  , active_loops := ui.active_loops + 1 }

/-- A click on the start button: tk invokes `start_monitoring` only while
the button is in state `tk.NORMAL`. -/
def click_start (t : ℚ) (ui : UIState) : UIState :=
  if ui.start_enabled then start_monitoring t ui else ui

/-- The rate actually computed by `get_disk_info` / `get_network_info`
for one counter pair: `(curr - prev) / delta` whenever `delta > 0`, with
no special-casing of a decreasing counter. -/
def rate_code (prevV currV prevT currT : ℚ) : ℚ :=
  if currT - prevT > 0 then (currV - prevV) / (currT - prevT) else 0

/-- Modelled from the spec: the RateCounter contract as the spec words
it — 0 when `currTime <= prevTime`, 0 when `currValue < prevValue`
(counter reset/wrap), else the quotient.  Stated only to be compared
with `rate_code`. -/
def rate_spec (prevV currV prevT currT : ℚ) : ℚ :=
  if currT ≤ prevT then 0
  else if currV < prevV then 0
  else (currV - prevV) / (currT - prevT)

/-- `True` only when each of `collect_snapshot`'s unguarded `psutil`
queries (cpu, memory, disk, network) returns without raising; says
nothing about the temperature sensors or the GPU query, whose failures
are handled inside their sources. -/
def exOk {α : Type} : Except String α → Bool
  | .ok _ => true
  | .error _ => false

def envOk (e : Env) : Bool :=
  exOk e.cpu_percent && exOk e.cpu_count && exOk e.cpu_freq && exOk e.per_cpu &&
  exOk e.virtual_mem && exOk e.swap_mem &&
  exOk e.disk_usage && exOk e.disk_counters && exOk e.net_counters

/-- All nine parallel channel arrays of a history have length `n`. -/
def allLen (h : History) (n : Nat) : Prop :=
  h.timestamps.length = n ∧ h.cpu_percent.length = n ∧
  h.memory_percent.length = n ∧ h.disk_read.length = n ∧
  h.disk_write.length = n ∧ h.net_sent.length = n ∧
  h.net_recv.length = n ∧ h.temperatures.length = n ∧
  h.gpu_usage.length = n

instance (h : History) (n : Nat) : Decidable (allLen h n) := by
  unfold allLen; infer_instance

lemma exOk_iff {α : Type} {x : Except String α} :
    exOk x = true ↔ ∃ a, x = .ok a := by
  cases x <;> simp [exOk]

lemma get_network_info_speeds (e : Env) (st : MonitorState)
    (net : NetCounters) (h : e.net_counters = .ok net) :
    get_network_info e st =
      .ok ({ bytes_sent := net.bytes_sent, bytes_recv := net.bytes_recv
           , sent_speed :=
               rate_code st.prev_net_io.bytes_sent net.bytes_sent
                 st.prev_time e.t_net
           , recv_speed :=
               rate_code st.prev_net_io.bytes_recv net.bytes_recv
                 st.prev_time e.t_net
           , packets_sent := net.packets_sent
           , packets_recv := net.packets_recv },
          { st with prev_net_io := net, prev_time := e.t_net }) := by
  simp only [get_network_info, h, rate_code, bind, Except.bind, pure, Except.pure]
  split <;> simp_all

lemma get_disk_info_speeds (e : Env) (st : MonitorState)
    (du : DiskUsage) (d p : DiskCounters)
    (h1 : e.disk_usage = .ok du)
    (h2 : e.disk_counters = .ok (some d))
    (h3 : st.prev_disk_io = some p) :
    get_disk_info e st =
      .ok ({ percent := du.percent, total := du.total, used := du.used
           , free := du.free
           , read_speed :=
               rate_code p.read_bytes d.read_bytes st.prev_time e.t_disk
           , write_speed :=
               rate_code p.write_bytes d.write_bytes st.prev_time e.t_disk },
          { st with prev_disk_io := some d }) := by
  simp only [get_disk_info, h1, h2, h3, rate_code, bind, Except.bind, pure,
    Except.pure]
  split <;> simp_all

lemma get_disk_info_ok_frame {e : Env} {st : MonitorState} {q : DiskInfo}
    {st' : MonitorState} (h : get_disk_info e st = .ok (q, st')) :
    st'.history = st.history ∧ st'.prev_time = st.prev_time ∧
    st'.prev_net_io = st.prev_net_io ∧ st'.start_time = st.start_time := by
  cases hdu : e.disk_usage with
  | error m => simp [get_disk_info, hdu, bind, Except.bind] at h
  | ok du =>
    cases hdc : e.disk_counters with
    | error m => simp [get_disk_info, hdu, hdc, bind, Except.bind] at h
    | ok od =>
      cases od with
      | none =>
        simp [get_disk_info, hdu, hdc, bind, Except.bind, pure,
          Except.pure] at h
        rw [← h.2]
        exact ⟨rfl, rfl, rfl, rfl⟩
      | some d =>
        simp [get_disk_info, hdu, hdc, bind, Except.bind, pure,
          Except.pure] at h
        rw [← h.2]
        exact ⟨rfl, rfl, rfl, rfl⟩

lemma get_network_info_ok_frame {e : Env} {st : MonitorState} {q : NetInfo}
    {st' : MonitorState} (h : get_network_info e st = .ok (q, st')) :
    st'.history = st.history ∧ st'.start_time = st.start_time := by
  cases hnc : e.net_counters with
  | error m => simp [get_network_info, hnc, bind, Except.bind] at h
  | ok net =>
    simp [get_network_info, hnc, bind, Except.bind, pure, Except.pure] at h
    rw [← h.2]
    exact ⟨rfl, rfl⟩

lemma collect_snapshot_ok_frame {e : Env} {st : MonitorState}
    {snap : Snapshot} {st' : MonitorState}
    (h : collect_snapshot e st = .ok (snap, st')) :
    st'.history.timestamps = st.history.timestamps ++ [e.now] ∧
    st'.history.cpu_percent.length = st.history.cpu_percent.length + 1 ∧
    st'.history.memory_percent.length = st.history.memory_percent.length + 1 ∧
    st'.history.disk_read.length = st.history.disk_read.length + 1 ∧
    st'.history.disk_write.length = st.history.disk_write.length + 1 ∧
    st'.history.net_sent.length = st.history.net_sent.length + 1 ∧
    st'.history.net_recv.length = st.history.net_recv.length + 1 ∧
    st'.history.temperatures.length = st.history.temperatures.length + 1 ∧
    st'.history.gpu_usage.length = st.history.gpu_usage.length + 1 ∧
    st'.start_time = st.start_time := by
  cases hc : get_cpu_info e with
  | error m => simp [collect_snapshot, hc, bind, Except.bind] at h
  | ok cpu =>
  cases hm : get_memory_info e with
  | error m => simp [collect_snapshot, hc, hm, bind, Except.bind] at h
  | ok memory =>
  cases hd : get_disk_info e st with
  | error m => simp [collect_snapshot, hc, hm, hd, bind, Except.bind] at h
  | ok pr1 =>
  obtain ⟨disk, st1⟩ := pr1
  cases hn : get_network_info e st1 with
  | error m => simp [collect_snapshot, hc, hm, hd, hn, bind, Except.bind] at h
  | ok pr2 =>
  obtain ⟨netr, st2⟩ := pr2
  have f1 := get_disk_info_ok_frame hd
  have f2 := get_network_info_ok_frame hn
  simp [collect_snapshot, hc, hm, hd, hn, bind, Except.bind, pure,
    Except.pure] at h
  rw [← h.2]
  simp [f2.1, f1.1, f2.2, f1.2.2.2]

lemma collect_snapshot_isOk_of_envOk (e : Env) (st : MonitorState)
    (h : envOk e = true) : exOk (collect_snapshot e st) = true := by
  simp only [envOk, Bool.and_eq_true, exOk_iff] at h
  obtain ⟨⟨⟨⟨⟨⟨⟨⟨⟨cp, hcp⟩, cc, hcc⟩, cf, hcf⟩, pc, hpc⟩, vm, hvm⟩,
    sm, hsm⟩, du, hdu⟩, od, hdc⟩, nc, hnc⟩ := h
  cases od with
  | none =>
    simp [collect_snapshot, get_cpu_info, get_memory_info, get_disk_info,
      get_network_info, hcp, hcc, hcf, hpc, hvm, hsm, hdu, hdc, hnc,
      bind, Except.bind, pure, Except.pure, exOk]
  | some d =>
    simp [collect_snapshot, get_cpu_info, get_memory_info, get_disk_info,
      get_network_info, hcp, hcc, hcf, hpc, hvm, hsm, hdu, hdc, hnc,
      bind, Except.bind, pure, Except.pure, exOk]

lemma collectN_ok (envs : List Env) (st : MonitorState)
    (h : ∀ e ∈ envs, envOk e = true) :
    ∃ st', collectN envs st = .ok st' ∧
      st'.history.timestamps = st.history.timestamps ++ envs.map Env.now ∧
      st'.history.cpu_percent.length =
        st.history.cpu_percent.length + envs.length ∧
      st'.history.memory_percent.length =
        st.history.memory_percent.length + envs.length ∧
      st'.history.disk_read.length =
        st.history.disk_read.length + envs.length ∧
      st'.history.disk_write.length =
        st.history.disk_write.length + envs.length ∧
      st'.history.net_sent.length =
        st.history.net_sent.length + envs.length ∧
      st'.history.net_recv.length =
        st.history.net_recv.length + envs.length ∧
      st'.history.temperatures.length =
        st.history.temperatures.length + envs.length ∧
      st'.history.gpu_usage.length =
        st.history.gpu_usage.length + envs.length := by
  induction envs generalizing st with
  | nil => exact ⟨st, rfl, by simp⟩
  | cons e rest ih =>
    have he : envOk e = true := h e (List.mem_cons_self e rest)
    have hok := collect_snapshot_isOk_of_envOk e st he
    cases hres : collect_snapshot e st with
    | error m => rw [hres] at hok; simp [exOk] at hok
    | ok p =>
      obtain ⟨snap, st1⟩ := p
      have frame := collect_snapshot_ok_frame hres
      obtain ⟨st', hrun, hts, hl⟩ :=
        ih st1 (fun x hx => h x (List.mem_cons_of_mem e hx))
      refine ⟨st', ?_, ?_, ?_⟩
      · simp [collectN, hres, bind, Except.bind, hrun]
      · rw [hts, frame.1]; simp
      · obtain ⟨-, f2, f3, f4, f5, f6, f7, f8, f9, -⟩ := frame
        obtain ⟨l2, l3, l4, l5, l6, l7, l8, l9⟩ := hl
        simp only [List.length_cons]
        omega

lemma rate_code_nonneg {pv cv : ℚ} (pt ct : ℚ) (h : pv ≤ cv) :
    0 ≤ rate_code pv cv pt ct := by
  unfold rate_code
  split
  · exact div_nonneg (by linarith) (by linarith)
  · exact le_refl 0

/-- A monitor state as it typically looks after a few samples: previous
network counters at 100/100 bytes, previous disk counters at 0/0, last
rate-baseline time 9. -/
def baseSt : MonitorState :=
  SystemMonitor.init 0 ⟨100, 100, 0, 0⟩ (some ⟨0, 0⟩) 9

/-- An environment in which every OS query succeeds; the network counters
read 0/0 — lower than the 100/100 remembered in `baseSt`, i.e. a counter
reset — and one second has passed since the baseline. -/
def baseEnv : Env :=
  { now := 10, t_main := 10, t_disk := 10, t_net := 10
  , cpu_percent := .ok 25, cpu_count := .ok 4
  , cpu_freq := .ok (some 2400), per_cpu := .ok [10, 20, 30, 40]
  , virtual_mem := .ok ⟨50, 1000, 500, 500⟩
  , swap_mem := .ok ⟨5, 100, 5⟩
  , disk_usage := .ok ⟨40, 10000, 4000, 6000⟩
  , disk_counters := .ok (some ⟨100, 50⟩)
  , net_counters := .ok ⟨0, 0, 1, 1⟩
  , has_sensors := true, sensors := .ok [("coretemp", [50, 60])]
  , gpu := .exc }

/-- C1, counterexample: in `baseEnv`/`baseSt` the current sent-bytes
counter (0) is below the remembered one (100) while the clock moved
forward by one second, and `get_network_info` reports rate −100 — not
the 0 the reset policy promises.  There is no `currValue < prevValue`
branch in the code. -/
theorem rate_reset_counterexample :
    baseSt.prev_net_io.bytes_sent = 100 ∧
    baseEnv.net_counters = Except.ok ⟨0, 0, 1, 1⟩ ∧
    baseSt.prev_time < baseEnv.t_net ∧
    (get_network_info baseEnv baseSt).map (fun p => p.1.sent_speed) =
      Except.ok (-100) := by
  refine ⟨rfl, rfl, by norm_num [baseSt, baseEnv, SystemMonitor.init], ?_⟩
  rw [get_network_info_speeds baseEnv baseSt ⟨0, 0, 1, 1⟩ rfl]
  simp only [Except.map]
  norm_num [rate_code, baseSt, baseEnv, SystemMonitor.init]

/-- C1 (amended): the network and disk rates equal
`rate_code prev curr prevTime currTime` = 0 when the time delta is ≤ 0,
else `(curr − prev) / delta` — with no special-casing of a decreasing
counter (the quotient is negative then).  The claimed contract
`rate_spec` is met exactly on non-decreasing counters. -/
theorem rate_computation_amended :
    (∀ (e : Env) (st : MonitorState) (net : NetCounters),
        e.net_counters = .ok net →
        (get_network_info e st).map (fun p => (p.1.sent_speed, p.1.recv_speed)) =
          .ok (rate_code st.prev_net_io.bytes_sent net.bytes_sent
                 st.prev_time e.t_net,
               rate_code st.prev_net_io.bytes_recv net.bytes_recv
                 st.prev_time e.t_net)) ∧
    (∀ (e : Env) (st : MonitorState) (du : DiskUsage) (d p : DiskCounters),
        e.disk_usage = .ok du → e.disk_counters = .ok (some d) →
        st.prev_disk_io = some p →
        (get_disk_info e st).map (fun q => (q.1.read_speed, q.1.write_speed)) =
          .ok (rate_code p.read_bytes d.read_bytes st.prev_time e.t_disk,
               rate_code p.write_bytes d.write_bytes st.prev_time e.t_disk)) ∧
    (∀ pv cv pt ct : ℚ, ct ≤ pt → rate_code pv cv pt ct = 0) ∧
    (∀ pv cv pt ct : ℚ, pv ≤ cv →
        rate_code pv cv pt ct = rate_spec pv cv pt ct) := by
  refine ⟨?_, ?_, ?_, ?_⟩
  · intro e st net h
    rw [get_network_info_speeds e st net h]; rfl
  · intro e st du d p h1 h2 h3
    rw [get_disk_info_speeds e st du d p h1 h2 h3]; rfl
  · intro pv cv pt ct h
    unfold rate_code
    rw [if_neg (by linarith : ¬ ct - pt > 0)]
  · intro pv cv pt ct h
    unfold rate_code rate_spec
    split_ifs <;> first | rfl | linarith

/-- Witness for C1's amended theorem at the concrete reset input. -/
theorem rate_computation_amended_witness :
    (get_network_info baseEnv baseSt).map
        (fun p => (p.1.sent_speed, p.1.recv_speed)) =
      Except.ok (rate_code 100 0 9 10, rate_code 100 0 9 10) :=
  rate_computation_amended.1 baseEnv baseSt ⟨0, 0, 1, 1⟩ rfl

/-- A freshly constructed monitor: history empty, previous counters as
read during `__init__` at time 0. -/
def freshSt : MonitorState :=
  SystemMonitor.init 0 ⟨0, 0, 0, 0⟩ (some ⟨0, 0⟩) 0

/-- The environment of the first sampling pass, one second after
construction, after 100 bytes were read and 50 written in between. -/
def firstEnv : Env :=
  { baseEnv with now := 1, t_main := 1, t_disk := 1, t_net := 1 }

/-- C5, counterexample: on the very first `get_disk_info` of a fresh
monitor the rates are the I/O accumulated since construction divided by
the elapsed time — here 100 and 50 bytes/s — not 0: nothing in the code
forces the first sample to 0. -/
theorem first_sample_rate_counterexample :
    freshSt.history = emptyHistory ∧
    (get_disk_info firstEnv freshSt).map
        (fun q => (q.1.read_speed, q.1.write_speed)) =
      Except.ok (100, 50) ∧
    (100 : ℚ) ≠ 0 := by
  refine ⟨rfl, ?_, by norm_num⟩
  rw [get_disk_info_speeds firstEnv freshSt ⟨40, 10000, 4000, 6000⟩
    ⟨100, 50⟩ ⟨0, 0⟩ rfl rfl rfl]
  simp only [Except.map]
  norm_num [rate_code, freshSt, firstEnv, baseEnv, SystemMonitor.init]

/-- C5 (amended): the disk read/write rates are non-negative whenever the
cumulative counters have not decreased since the previous read (they are
0 outright when the time delta is ≤ 0); and on the first sample after
construction they equal the I/O accumulated since construction divided
by the time since the `__init__` baseline — 0 only when that delta is ≤ 0
or the counters are unchanged, not unconditionally. -/
theorem disk_rate_nonneg_amended :
    (∀ (e : Env) (st : MonitorState) (du : DiskUsage) (d p : DiskCounters),
        e.disk_usage = .ok du → e.disk_counters = .ok (some d) →
        st.prev_disk_io = some p →
        p.read_bytes ≤ d.read_bytes → p.write_bytes ≤ d.write_bytes →
        ∀ (q : DiskInfo) (st2 : MonitorState),
          get_disk_info e st = .ok (q, st2) →
          0 ≤ q.read_speed ∧ 0 ≤ q.write_speed) ∧
    (∀ (t0 t1 : ℚ) (net0 : NetCounters) (d0 : DiskCounters) (e : Env)
        (du : DiskUsage) (d : DiskCounters),
        e.disk_usage = .ok du → e.disk_counters = .ok (some d) →
        ∀ (q : DiskInfo) (st2 : MonitorState),
          get_disk_info e (SystemMonitor.init t0 net0 (some d0) t1) =
            .ok (q, st2) →
          q.read_speed = rate_code d0.read_bytes d.read_bytes t1 e.t_disk ∧
          q.write_speed = rate_code d0.write_bytes d.write_bytes t1 e.t_disk) := by
  constructor
  · intro e st du d p h1 h2 h3 hr hw q st2 hq
    rw [get_disk_info_speeds e st du d p h1 h2 h3] at hq
    simp only [Except.ok.injEq, Prod.mk.injEq] at hq
    rw [← hq.1]
    exact ⟨rate_code_nonneg st.prev_time e.t_disk hr,
      rate_code_nonneg st.prev_time e.t_disk hw⟩
  · intro t0 t1 net0 d0 e du d h1 h2 q st2 hq
    rw [get_disk_info_speeds e (SystemMonitor.init t0 net0 (some d0) t1)
      du d d0 h1 h2 rfl] at hq
    simp only [Except.ok.injEq, Prod.mk.injEq] at hq
    rw [← hq.1]
    exact ⟨rfl, rfl⟩

/-- Witness for C5's amended theorem: the first sample of the fresh
monitor, whose counters grew by 100/50 bytes over one second. -/
theorem disk_rate_nonneg_amended_witness :
    ({ percent := 40, total := 10000, used := 4000, free := 6000
     , read_speed := 100, write_speed := 50 } : DiskInfo).read_speed =
        rate_code 0 100 0 1 ∧
    ({ percent := 40, total := 10000, used := 4000, free := 6000
     , read_speed := 100, write_speed := 50 } : DiskInfo).write_speed =
        rate_code 0 50 0 1 := by
  have heq : get_disk_info firstEnv
      (SystemMonitor.init 0 ⟨0, 0, 0, 0⟩ (some ⟨0, 0⟩) 0) =
      Except.ok ((⟨40, 10000, 4000, 6000, 100, 50⟩ : DiskInfo),
        (⟨emptyHistory, 0, ⟨0, 0, 0, 0⟩, some ⟨100, 50⟩, 0⟩ : MonitorState)) := by
    rw [get_disk_info_speeds firstEnv
      (SystemMonitor.init 0 ⟨0, 0, 0, 0⟩ (some ⟨0, 0⟩) 0)
      ⟨40, 10000, 4000, 6000⟩ ⟨100, 50⟩ ⟨0, 0⟩ rfl rfl rfl]
    norm_num [rate_code, firstEnv, baseEnv, SystemMonitor.init]
  exact disk_rate_nonneg_amended.2 0 0 ⟨0, 0, 0, 0⟩ ⟨0, 0⟩ firstEnv
    ⟨40, 10000, 4000, 6000⟩ ⟨100, 50⟩ rfl rfl _ _ heq

/-- `baseEnv` with the `psutil.virtual_memory()` query raising. -/
def memFailEnv : Env := { baseEnv with virtual_mem := .error "OSError" }

/-- C2, counterexample: `collect_snapshot` has no handler around the cpu,
memory, disk and network queries; a raise from `psutil.virtual_memory()`
propagates out of the call instead of yielding a Snapshot with that field
unavailable, and nothing is appended to the history for that pass. -/
theorem collect_snapshot_propagates_counterexample :
    collect_snapshot memFailEnv baseSt = .error "OSError" := by
  simp [collect_snapshot, get_cpu_info, get_memory_info, memFailEnv, baseEnv,
    bind, Except.bind, pure, Except.pure]

/-- C2 (amended): only the temperature and GPU sources contain their own
failures: whenever the cpu, memory, disk and network queries all return
(`envOk`), `collect_snapshot` returns a complete snapshot for EVERY
outcome of the sensors query and of the GPU subprocess; but an exception
in any of the four unguarded sources propagates out (see the
counterexample). -/
theorem collect_snapshot_amended :
    ∀ (e : Env) (st : MonitorState) (hs : Bool)
      (s : Except String (List (String × List ℚ))) (g : GpuRun),
      envOk e = true →
      exOk (collect_snapshot
        { e with has_sensors := hs, sensors := s, gpu := g } st) = true := by
  intro e st hs s g h
  apply collect_snapshot_isOk_of_envOk
  simpa [envOk] using h

/-- `baseEnv` with the sensors query raising and the GPU binary missing. -/
def sensorFailEnv : Env :=
  { baseEnv with
    has_sensors := true
  , sensors := .error "no sensors"
  , gpu := .exc }

/-- Witness for C2's amended theorem: all four unguarded queries succeed
while the sensors query raises and the GPU binary is missing; the pass
still completes. -/
theorem collect_snapshot_amended_witness :
    exOk (collect_snapshot sensorFailEnv baseSt) = true :=
  collect_snapshot_amended baseEnv baseSt true (.error "no sensors") .exc
    (by decide)

/-- An arbitrary concrete monitor for the UI fixtures. -/
def mon0 : MonitorState := SystemMonitor.init 0 ⟨0, 0, 0, 0⟩ none 0

/-- A UI state in which a session is already running: the flag is set,
exactly one `monitoring_loop` thread is alive, the start button is
disabled (as `start_monitoring` left it). -/
def uiRunning : UIState :=
  { is_monitoring := true, active_loops := 1, start_enabled := false
  , stop_enabled := true, pdf_enabled := false
  , recording_start_time := some 0, monitor := mon0 }

/-- The initial UI state built by `MonitorUI.__init__` / `setup_ui`. -/
def uiIdle : UIState :=
  { is_monitoring := false, active_loops := 0, start_enabled := true
  , stop_enabled := false, pdf_enabled := false
  , recording_start_time := none, monitor := mon0 }

/-- C3, counterexample: `start_monitoring` performs no already-running
check; invoked directly while a session is Running it spawns a second
`monitoring_loop` thread (two live loops, not one) — and also wipes the
running session's history. -/
theorem start_monitoring_counterexample :
    uiRunning.is_monitoring = true ∧ uiRunning.active_loops = 1 ∧
    (start_monitoring 5 uiRunning).active_loops = 2 := by
  refine ⟨rfl, rfl, rfl⟩

/-- C3 (amended): the method itself rejects nothing — every call spawns
one more loop thread; re-entry is prevented only at the UI layer, because
`start_monitoring` disables the start button and tk drops clicks on a
disabled button, so starting via the button can never run two loops. -/
theorem start_monitoring_amended :
    (∀ (t : ℚ) (ui : UIState),
        (start_monitoring t ui).active_loops = ui.active_loops + 1 ∧
        (start_monitoring t ui).is_monitoring = true ∧
        (start_monitoring t ui).start_enabled = false ∧
        (start_monitoring t ui).monitor.history = emptyHistory) ∧
    (∀ (t1 t2 : ℚ) (ui : UIState),
        click_start t2 (start_monitoring t1 ui) = start_monitoring t1 ui) ∧
    (∀ (t1 t2 : ℚ) (ui : UIState), ui.active_loops = 0 →
        (click_start t2 (click_start t1 ui)).active_loops ≤ 1) := by
  refine ⟨fun t ui => ⟨rfl, rfl, rfl, rfl⟩, ?_, ?_⟩
  · intro t1 t2 ui
    simp [click_start, start_monitoring]
  · intro t1 t2 ui h
    by_cases hs : ui.start_enabled
    · simp [click_start, hs, start_monitoring, h]
    · simp [click_start, hs, h]

/-- Witness for C3's amended theorem: two successive start-button clicks
from the idle UI leave at most one live loop. -/
theorem start_monitoring_amended_witness :
    (click_start 2 (click_start 1 uiIdle)).active_loops ≤ 1 :=
  start_monitoring_amended.2.2 1 2 uiIdle rfl

/-- C4: after N successful `collect_snapshot` calls on a monitor whose
history is fresh (empty, as after `__init__` or `clear_history`), all
nine parallel channel arrays have length exactly N, and — provided the
wall-clock readings of the passes are non-decreasing — the `timestamps`
array is non-decreasing; one successful call grows every channel by
exactly one, and `clear_history` resets every channel to length 0. -/
theorem history_parallel_invariant :
    (∀ (envs : List Env) (st : MonitorState),
        st.history = emptyHistory →
        (∀ e ∈ envs, envOk e = true) →
        List.Chain' (· ≤ ·) (envs.map Env.now) →
        ∃ st', collectN envs st = .ok st' ∧
          allLen st'.history envs.length ∧
          List.Chain' (· ≤ ·) st'.history.timestamps) ∧
    (∀ (t : ℚ) (s : MonitorState), allLen (clear_history t s).history 0) ∧
    (∀ (e : Env) (st : MonitorState) (snap : Snapshot) (st' : MonitorState)
        (n : Nat), collect_snapshot e st = .ok (snap, st') →
        allLen st.history n → allLen st'.history (n + 1)) := by
  refine ⟨?_, ?_, ?_⟩
  · intro envs st hemp hok hchain
    obtain ⟨st', hrun, hts, l2, l3, l4, l5, l6, l7, l8, l9⟩ :=
      collectN_ok envs st hok
    rw [hemp] at hts l2 l3 l4 l5 l6 l7 l8 l9
    simp only [emptyHistory, List.nil_append, List.length_nil,
      Nat.zero_add] at hts l2 l3 l4 l5 l6 l7 l8 l9
    refine ⟨st', hrun, ⟨?_, l2, l3, l4, l5, l6, l7, l8, l9⟩, ?_⟩
    · rw [hts]; exact List.length_map envs Env.now
    · rw [hts]; exact hchain
  · intro t s
    simp [clear_history, allLen, emptyHistory]
  · intro e st snap st' n h hl
    obtain ⟨f1, f2, f3, f4, f5, f6, f7, f8, f9, -⟩ :=
      collect_snapshot_ok_frame h
    obtain ⟨l1, l2, l3, l4, l5, l6, l7, l8, l9⟩ := hl
    refine ⟨?_, by omega, by omega, by omega, by omega, by omega, by omega,
      by omega, by omega⟩
    rw [f1, List.length_append, l1]
    rfl

/-- Witness for C4: one pass over the fresh monitor. -/
theorem history_parallel_invariant_witness :
    ∃ st', collectN [firstEnv] freshSt = .ok st' ∧
      allLen st'.history 1 ∧
      List.Chain' (· ≤ ·) st'.history.timestamps :=
  history_parallel_invariant.1 [firstEnv] freshSt rfl
    (fun e he => by rw [List.mem_singleton] at he; subst he; decide)
    (by simp)

set_option maxRecDepth 8000 in
/-- C6: evaluation of `get_gpu_info` at the decisive inputs.  Exception
(missing binary / timeout), non-zero exit code, and a too-short CSV line
all yield the all-zero unavailable reading — but a well-formed three-field
line whose first field is not a number is reported with
`available = true` and zeroed metrics, because the code sets
`gpu_info['available'] = True` before any `float()` call and the bare
`except` then swallows the `ValueError`. -/
theorem gpu_malformed_output_marks_available :
    get_gpu_info (GpuRun.done 0 "abc, 10, 20") =
      { available := true, usage := 0, memory := 0, temperature := 0 } ∧
    get_gpu_info GpuRun.exc =
      { available := false, usage := 0, memory := 0, temperature := 0 } ∧
    get_gpu_info (GpuRun.done 1 "35, 1024, 60") =
      { available := false, usage := 0, memory := 0, temperature := 0 } ∧
    get_gpu_info (GpuRun.done 0 "35") =
      { available := false, usage := 0, memory := 0, temperature := 0 } ∧
    get_gpu_info (GpuRun.done 0 "35, 1024, 60") =
      { available := true, usage := 35, memory := 1024, temperature := 60 } := by
  refine ⟨by with_unfolding_all decide, rfl, by with_unfolding_all decide,
    by with_unfolding_all decide, by with_unfolding_all decide⟩

/-- A sequence of `get_history` reads: each read returns the current
history dict and leaves the monitor untouched. -/
def read_many : Nat → MonitorState → List History
  | 0, _ => []
  | n + 1, st => get_history st :: read_many n st

/-- C7: after `clear_history`, every one of any number of `get_history`
reads returns the empty history — all nine channel arrays of length 0 —
until something is appended again. -/
theorem clear_then_reads_empty :
    ∀ (st : MonitorState) (t : ℚ) (n : Nat),
      read_many n (clear_history t st) = List.replicate n emptyHistory ∧
      emptyHistory.timestamps = [] ∧ emptyHistory.cpu_percent = [] ∧
      emptyHistory.memory_percent = [] ∧ emptyHistory.disk_read = [] ∧
      emptyHistory.disk_write = [] ∧ emptyHistory.net_sent = [] ∧
      emptyHistory.net_recv = [] ∧ emptyHistory.temperatures = [] ∧
      emptyHistory.gpu_usage = [] := by
  intro st t n
  refine ⟨?_, rfl, rfl, rfl, rfl, rfl, rfl, rfl, rfl, rfl⟩
  induction n with
  | zero => rfl
  | succ k ih =>
    rw [read_many, ih, List.replicate_succ]
    rfl

/-- C9: the three documented evaluations of `format_bytes`. -/
theorem format_bytes_spec :
    format_bytes 0 = "0.00 B" ∧ format_bytes 1536 = "1.50 KB" ∧
    format_bytes (1024 * 1024 * 1024 * 2) = "2.00 GB" := by
  refine ⟨by with_unfolding_all decide, by with_unfolding_all decide,
    by with_unfolding_all decide⟩

/-- C8: one statistics-table row over the data [10, 20, 30] carries
mean 20, min 10, max 30 and sample standard deviation 10 (n−1 divisor),
each rendered by `:.2f` as 20.00 / 10.00 / 30.00; and the standard
deviation is defined as 0 whenever the channel has at most one point
(the `len(data) > 1` guard). -/
theorem statistics_row_spec :
    statsRow [10, 20, 30] = (20, 10, 30, (10 : ℝ)) ∧
    formatFixed2 20 = "20.00" ∧ formatFixed2 10 = "10.00" ∧
    formatFixed2 30 = "30.00" ∧
    (∀ xs : List ℚ, xs.length ≤ 1 → stdevReported xs = 0) := by
  have hvar : sampleVariance [10, 20, 30] = 100 := by
    norm_num [sampleVariance, mean]
  have hsd : stdevReported [10, 20, 30] = 10 := by
    rw [stdevReported,
      if_pos (by norm_num : ([10, 20, 30] : List ℚ).length > 1), stdev, hvar]
    rw [show ((100 : ℚ) : ℝ) = (10 : ℝ) ^ 2 by norm_num]
    exact Real.sqrt_sq (by norm_num)
  refine ⟨?_, by with_unfolding_all decide, by with_unfolding_all decide,
    by with_unfolding_all decide, ?_⟩
  · simp only [statsRow, Prod.mk.injEq]
    exact ⟨by norm_num [mean], by with_unfolding_all decide,
      by with_unfolding_all decide, hsd⟩
  · intro xs h
    rw [stdevReported, if_neg (by omega : ¬ xs.length > 1)]

/-- Witness for C8 at a one-point channel. -/
theorem statistics_row_spec_witness :
    stdevReported [(7 : ℚ)] = 0 :=
  statistics_row_spec.2.2.2.2 [7] (by decide)

/-- C10: `clear_history` empties the history and resets `start_time` to
the current time but leaves the rate-tracking state (`_prev_net_io`,
`_prev_disk_io`, `_prev_time`) untouched; consequently the network and
disk readings computed after a clear are identical to what they would
have been without the clear — measured against the last read taken
before it, not against a fresh baseline. -/
theorem clear_history_frame :
    ∀ (st : MonitorState) (t : ℚ),
      (clear_history t st).prev_net_io = st.prev_net_io ∧
      (clear_history t st).prev_disk_io = st.prev_disk_io ∧
      (clear_history t st).prev_time = st.prev_time ∧
      (clear_history t st).history = emptyHistory ∧
      (clear_history t st).start_time = t ∧
      (∀ e : Env, (get_network_info e (clear_history t st)).map Prod.fst =
          (get_network_info e st).map Prod.fst) ∧
      (∀ e : Env, (get_disk_info e (clear_history t st)).map Prod.fst =
          (get_disk_info e st).map Prod.fst) := by
  intro st t
  refine ⟨rfl, rfl, rfl, rfl, rfl, ?_, ?_⟩
  · intro e
    cases hnc : e.net_counters with
    | error m =>
      simp [get_network_info, hnc, bind, Except.bind, Except.map]
    | ok net =>
      simp [get_network_info, hnc, bind, Except.bind, pure, Except.pure,
        Except.map, clear_history]
  · intro e
    cases hdu : e.disk_usage with
    | error m => simp [get_disk_info, hdu, bind, Except.bind, Except.map]
    | ok du =>
      cases hdc : e.disk_counters with
      | error m =>
        simp [get_disk_info, hdu, hdc, bind, Except.bind, Except.map]
      | ok od =>
        cases od with
        | none =>
          simp [get_disk_info, hdu, hdc, bind, Except.bind, pure,
            Except.pure, Except.map, clear_history]
        | some d =>
          simp [get_disk_info, hdu, hdc, bind, Except.bind, pure,
            Except.pure, Except.map, clear_history]
